import Mathlib

/-!
Verification of the extraction/derivation/trend/scoring core of the
`document_parsing_backend` repository against its natural-language
specification.

Shallow embedding conventions:
* Python floats are modelled as rationals (`ℚ`); every formula under
  verification is exact rational arithmetic.
* Python `Optional[float]` becomes `Option ℚ`; Python truthiness of an
  optional number (`None` and `0.0` are falsy) is the function `truthy`.
* Regex match lists and substring-derived booleans are abstracted as inputs:
  the verified claims concern how matched values are combined, not the
  regex engine itself.
* `scipy.stats.linregress` is an external library collaborator; it is passed
  in as a function argument returning `(slope, p_value)`.
* Python `x ** 0.5` (used once, for the sediment-area fraction whose numeric
  value is never consumed by any downstream branch or verified claim) is
  abstracted as a function argument `sqrtFn`.
-/

namespace DocParse

/-- Python truthiness of an optional number: `None` and `0.0` are falsy,
every other float is truthy. -/
def truthy : Option ℚ → Bool
  | none => false
  | some q => decide (q ≠ 0)

/-- Python `min` over a non-empty list (`None` for the empty list, matching
the guarded call sites which only invoke `min` on non-empty lists). -/
def listMin : List ℚ → Option ℚ
  | [] => none
  | x :: xs =>
    match listMin xs with
    | none => some x
    | some m => some (min x m)

/-! ## advanced_analysis.py: extracted-data records

Fields of the pydantic models that are set purely from substring presence
checks on the raw text (`measured_to_bottom`, `measurement_frequency`,
`summer_months_covered`, `measurement_locations`, …) are not consumed by any
claim under verification and are omitted from the embedding. -/

/-- `ExtractedDOData` (advanced_analysis.py lines 25-35), numeric fields. -/
structure ExtractedDOData where
  has_do_measurements : Bool
  do_values : List ℚ
  depths_measured : List ℚ
  oxycline_depth : Option ℚ
  minimum_do : Option ℚ
deriving DecidableEq, Repr

/-- `ExtractedNutrientData` (lines 38-47); only `hypolimnion_srp` is read by
`_perform_calculations`, the code under verification. -/
structure ExtractedNutrientData where
  hypolimnion_srp : Option ℚ
deriving DecidableEq, Repr

/-- `HypsographicData` (lines 62-71), numeric and flag fields read by
`_perform_calculations`. -/
structure HypsographicData where
  has_hypsographic_table : Bool
  max_depth : Option ℚ
  total_volume : Option ℚ
  total_surface_area : Option ℚ
  can_calculate_hypoxic_volume : Bool
deriving DecidableEq, Repr

/-- Lines 377-380: `can_calculate_hypoxic_volume = has_hypsographic_table or
(total_volume is not None and max_depth is not None)`.  A `HypsographicData`
produced by `_extract_hypsographic_data` always satisfies
`h.can_calculate_hypoxic_volume = canCalcHypoxic h`. -/
def canCalcHypoxic (h : HypsographicData) : Bool :=
  h.has_hypsographic_table || (h.total_volume.isSome && h.max_depth.isSome)

/-! ## advanced_analysis.py: `_extract_do_data` (lines 185-245)

The four DO regex patterns and the three depth regex patterns are abstracted:
the embedding takes the list of numeric regex matches (in match order) and
the externally supplied `metrics['dissolved_oxygen_values']` list as inputs
(`[]` stands for an absent/empty metrics entry, which Python treats
identically under truthiness). -/

/-- Scan of lines 240-243: iterate over DO values in order, return the depth
at the index of the first value strictly below the threshold 2.5 mg/L. -/
def oxyclineScan : List ℚ → List ℚ → Option ℚ
  | v :: vs, d :: ds => if v < 5/2 then some d else oxyclineScan vs ds
  | _, _ => none

/-- Lines 238-244: the oxycline is computed only when both arrays are
non-empty (truthiness of the lists) and of equal length; otherwise the field
keeps its default `None`. -/
def oxyclineDepth (doValues depths : List ℚ) : Option ℚ :=
  if !doValues.isEmpty && !depths.isEmpty && doValues.length == depths.length then
    oxyclineScan doValues depths
  else none

/-- Lines 197-244 of `_extract_do_data`: combination of regex DO matches with
metrics-supplied DO values (`do_values or metrics.get('dissolved_oxygen_values', [])`,
i.e. the regex list verbatim when non-empty, else the metrics list), the
minimum, the depth list, and the oxycline. -/
def extractDOData (regexDOValues metricsDOValues regexDepths : List ℚ) : ExtractedDOData :=
  let dvs := if regexDOValues.isEmpty then metricsDOValues else regexDOValues
  { has_do_measurements := !regexDOValues.isEmpty || !metricsDOValues.isEmpty
    do_values := dvs
    depths_measured := regexDepths
    minimum_do := listMin dvs
    oxycline_depth := oxyclineDepth dvs regexDepths }

/-! ## advanced_analysis.py: `_perform_calculations` (lines 418-493) -/

/-- Calculation-note trace entries.  The Python code appends interpolated
strings; the embedding keeps each note as a constructor tagged with the
interpolated numeric payload (string formatting is presentation only):
* `hypoxicVolumeEstimated o v` — "Hypoxic volume estimated based on oxycline
  depth (om) and total volume (v m³)" (lines 443-446);
* `sedimentAreaEstimated a` — "Hypoxic sediment area estimated: a m²"
  (lines 456-458);
* `biomassPotential t kg` — "Phytoplankton Biomass Potential: t tonnes
  (based on kg kg available P in hypoxic layer)" (lines 478-481);
* `biomassMissingVolume` — "Cannot calculate Biomass Potential: SRP data
  available but hypoxic volume unknown. …" (lines 483-486);
* `biomassMissingSRP` — "Cannot calculate Biomass Potential: Hypoxic volume
  available but no SRP data from below oxycline. …" (lines 488-491). -/
inductive CalcNote where
  | hypoxicVolumeEstimated (oxyclineDepth totalVolume : ℚ)
  | sedimentAreaEstimated (area : ℚ)
  | biomassPotential (tonnes totalPKg : ℚ)
  | biomassMissingVolume
  | biomassMissingSRP
deriving DecidableEq, Repr

/-- `CalculatedMetrics` (lines 82-90). -/
structure CalculatedMetrics where
  hypoxic_water_volume : Option ℚ
  hypoxic_volume_percentage : Option ℚ
  hypoxic_sediment_area : Option ℚ
  hypoxic_area_percentage : Option ℚ
  phytoplankton_biomass_potential : Option ℚ
  biomass_potential_tonnes : Option ℚ
  calculation_notes : List CalcNote
deriving DecidableEq, Repr

/-- The freshly constructed `CalculatedMetrics()` of line 428: every numeric
field defaults to `None`, the note list to `[]`. -/
def emptyMetrics : CalculatedMetrics :=
  ⟨none, none, none, none, none, none, []⟩

/-- Lines 430-446: the hypoxic-volume branch.  The two nested guards
(`if can_calculate_hypoxic_volume and oxycline_depth is not None:` and
`if total_volume and max_depth:`, the inner one by Python truthiness) are
merged into a single condition, as no code runs between them. -/
def hypoxicVolumeBranch (dd : ExtractedDOData) (hd : HypsographicData)
    (m : CalculatedMetrics) : CalculatedMetrics :=
  if hd.can_calculate_hypoxic_volume && dd.oxycline_depth.isSome
      && truthy hd.total_volume && truthy hd.max_depth then
    let oxy := dd.oxycline_depth.getD 0
    let vol := hd.total_volume.getD 0
    let maxd := hd.max_depth.getD 0
    let hypoxic_depth_fraction := (maxd - oxy) / maxd
    let estimated_hypoxic_fraction := hypoxic_depth_fraction ^ 2
    { m with
      hypoxic_water_volume := some (vol * estimated_hypoxic_fraction)
      hypoxic_volume_percentage := some (estimated_hypoxic_fraction * 100)
      calculation_notes := m.calculation_notes ++ [.hypoxicVolumeEstimated oxy vol] }
  else m

/-- Lines 448-458: the hypoxic-sediment-area branch, guarded by truthiness of
`total_surface_area` and of the just-computed `hypoxic_volume_percentage`.
`sqrtFn` stands for Python `(pct / 100) ** 0.5`. -/
def sedimentAreaBranch (sqrtFn : ℚ → ℚ) (hd : HypsographicData)
    (m : CalculatedMetrics) : CalculatedMetrics :=
  if truthy hd.total_surface_area && truthy m.hypoxic_volume_percentage then
    let pct := m.hypoxic_volume_percentage.getD 0
    let estimated_area_fraction := sqrtFn (pct / 100)
    let area := hd.total_surface_area.getD 0 * estimated_area_fraction
    { m with
      hypoxic_sediment_area := some area
      hypoxic_area_percentage := some (estimated_area_fraction * 100)
      calculation_notes := m.calculation_notes ++ [.sedimentAreaEstimated area] }
  else m

/-- Lines 460-491: the phytoplankton-biomass branch: an `if`/`elif`/`elif`
chain on truthiness of the computed `hypoxic_water_volume` and the extracted
`hypolimnion_srp`. -/
def biomassBranch (nd : ExtractedNutrientData) (m : CalculatedMetrics) :
    CalculatedMetrics :=
  if truthy m.hypoxic_water_volume && truthy nd.hypolimnion_srp then
    let hv := m.hypoxic_water_volume.getD 0
    let srp := nd.hypolimnion_srp.getD 0
    let total_p_kg := hv * srp / 1000
    { m with
      phytoplankton_biomass_potential := some (total_p_kg * 100)
      biomass_potential_tonnes := some (total_p_kg * 100 / 1000)
      calculation_notes :=
        m.calculation_notes ++ [.biomassPotential (total_p_kg * 100 / 1000) total_p_kg] }
  else if truthy nd.hypolimnion_srp && !truthy m.hypoxic_water_volume then
    { m with calculation_notes := m.calculation_notes ++ [.biomassMissingVolume] }
  else if truthy m.hypoxic_water_volume && !truthy nd.hypolimnion_srp then
    { m with calculation_notes := m.calculation_notes ++ [.biomassMissingSRP] }
  else m

/-- `AdvancedDataExtractor._perform_calculations` (lines 418-493): the three
branches run in order on a fresh `CalculatedMetrics`. -/
def performCalculations (sqrtFn : ℚ → ℚ) (dd : ExtractedDOData)
    (nd : ExtractedNutrientData) (hd : HypsographicData) : CalculatedMetrics :=
  biomassBranch nd (sedimentAreaBranch sqrtFn hd (hypoxicVolumeBranch dd hd emptyMetrics))

/-! ## compliance_engine.py: score clamp (lines 1065-1069)

`evaluate_document` initializes `evaluation["overall_score"] = 0` (line 35);
the evaluators add signed weighted deltas to it; `_calculate_score` then sets
`overall_score = max(0, min(100, 50 + overall_score))`. -/

/-- `ComplianceEngine._calculate_score`, line 1068, applied to the
accumulated sum of weighted deltas. -/
def calculateScore (total : ℚ) : ℚ :=
  max 0 (min 100 (50 + total))

/-! ## compliance_engine.py: `_evaluate_calculations` (lines 836-896)

The rule keys (`self.rules["critical_calculations"].keys()`) and the
`parameters_found` flag map come from external configuration and upstream
extraction; they are inputs here.  The two weight lookups
`scoring_weights.get("critical_calculation_present", 15)` and
`scoring_weights.get("critical_calculation_missing", -15)` are inputs
`wPresent` / `wMissing`. -/

/-- Lines 849-852: the fixed `related_calcs` absolute-to-percentage pairing. -/
def relatedCalcs : String → Option String
  | "hypoxic_water_volume" => some "hypoxic_percentage_volume"
  | "hypoxic_sediment_area" => some "hypoxic_percentage_area"
  | _ => none

/-- An entry of `evaluation["calculations"]["found"]`: the calculation name,
and whether the code attached the `"status": "partial - percentage mentioned
but actual values not calculated"` marker (line 879). -/
structure CalcFoundEntry where
  name : String
  halfCredit : Bool
deriving DecidableEq, Repr

/-- The state threaded through the `for calc_key in calculations` loop:
the `found` list, the `missing` list (names only; formula/importance texts
are configuration passthrough) and the accumulated score delta. -/
structure CalcEvalState where
  found : List CalcFoundEntry
  missing : List String
  score : ℚ
deriving DecidableEq, Repr

/-- One iteration of the loop body (lines 854-896) for key `calc_key`:
found ⇒ full credit; else if the paired percentage variant was found ⇒
record as partial with half of `wPresent`; else ⇒ missing with `wMissing`.
`pf` is the `parameters_found` flag map
(`percentage_found[rel] = params_found.get("calc_" + rel, False)`,
lines 843-846). -/
def evalCalcStep (pf : String → Bool) (wPresent wMissing : ℚ)
    (st : CalcEvalState) (calc_key : String) : CalcEvalState :=
  if pf ("calc_" ++ calc_key) then
    { st with
      found := st.found ++ [⟨calc_key, false⟩]
      score := st.score + wPresent }
  else
    match relatedCalcs calc_key with
    | some rel =>
      if pf ("calc_" ++ rel) then
        { st with
          found := st.found ++ [⟨calc_key, true⟩]
          score := st.score + wPresent * (1/2) }
      else
        { st with
          missing := st.missing ++ [calc_key]
          score := st.score + wMissing }
    | none =>
      { st with
        missing := st.missing ++ [calc_key]
        score := st.score + wMissing }

/-- `ComplianceEngine._evaluate_calculations`: fold of the loop body over the
configured calculation keys, starting from empty lists and a zero score
delta. -/
def evaluateCalculations (pf : String → Bool) (wPresent wMissing : ℚ)
    (calcKeys : List String) : CalcEvalState :=
  calcKeys.foldl (evalCalcStep pf wPresent wMissing) ⟨[], [], 0⟩

/-! ## lake_assessment.py: trend analysis

`scipy.stats.linregress` is external library code; the embedding passes it
in as `reg : List (ℤ × ℚ) → ℚ × ℚ` returning `(slope, p_value)` for the
cleaned `(year, value)` pairs.  Every claim under verification quantifies
over `reg`, i.e. holds for any regression backend. -/

/-- The `direction` values of `_calculate_trend` (lines 259-268). -/
inductive TrendDirection where
  | increasing
  | decreasing
  | stable
  | no_clear_trend
deriving DecidableEq, Repr

/-- The `trend` tag of the returned dict (`'insufficient_data'` at line 248,
`'analyzed'` at line 277). -/
inductive TrendTag where
  | insufficient_data
  | analyzed
deriving DecidableEq, Repr

/-- The dict returned by `_calculate_trend`; keys absent in the
insufficient-data return (slope, r_squared, p_value, first/last value) are
`none` there.  `r_squared` and `std_err` are not consumed by any claim and
omitted. -/
structure TrendStats where
  trend : TrendTag
  direction : Option TrendDirection
  slope : Option ℚ
  p_value : Option ℚ
  change_rate : Option ℚ
  first_value : Option ℚ
  last_value : Option ℚ
deriving DecidableEq, Repr

/-- Line 244: `clean_data = [(y, v) for y, v in zip(years, values) if v is
not None]`. -/
def cleanData (years : List ℤ) (values : List (Option ℚ)) : List (ℤ × ℚ) :=
  (years.zip values).filterMap (fun p => p.2.map (fun v => (p.1, v)))

/-- `LakeAssessment._calculate_trend` (lines 232-286). -/
def calculateTrend (reg : List (ℤ × ℚ) → ℚ × ℚ)
    (years : List ℤ) (values : List (Option ℚ)) : TrendStats :=
  let clean := cleanData years values
  if clean.length < 2 then
    { trend := .insufficient_data, direction := none, slope := none,
      p_value := none, change_rate := none, first_value := none, last_value := none }
  else
    let slope := (reg clean).1
    let p_value := (reg clean).2
    let direction : TrendDirection :=
      if p_value < 1/20 then
        if |slope| < 1/100 then .stable
        else if slope > 0 then .increasing
        else .decreasing
      else .no_clear_trend
    let first := ((clean.head?).getD (0, 0)).2
    let last := ((clean.getLast?).getD (0, 0)).2
    let total_change : Option ℚ :=
      if first ≠ 0 then some ((last - first) / |first| * 100) else none
    { trend := .analyzed, direction := some direction, slope := some slope,
      p_value := some p_value, change_rate := total_change,
      first_value := some first, last_value := some last }

/-- A `LakeReportRecord` as consumed by the trend analyzer: the heuristic
`extracted_year`, the `metrics` map restricted to the tracked numeric
parameters, and the compliance evaluation's `overall_score`. -/
structure LakeReport where
  extracted_year : Option ℤ
  metricsMap : String → Option ℚ
  compliance_score : Option ℚ

/-- `self.minimum_reports_for_trends` (line 20). -/
def minimumReportsForTrends : ℕ := 3

/-- Lines 192-200: the tracked parameter keys. -/
def parametersToTrack : List String :=
  ["dissolved_oxygen_min", "hypoxic_volume", "hypoxic_percentage",
   "orthophosphate_max", "ammonia_max", "cyanobacteria_percentage",
   "compliance_score"]

/-- `years = [r.get('extracted_year') for r in reports if
r.get('extracted_year')]` (line 184): Python truthiness drops both `None`
and a literal year `0`. -/
def reportYears (reports : List LakeReport) : List ℤ :=
  reports.filterMap (fun r =>
    match r.extracted_year with
    | none => none
    | some y => if y ≠ 0 then some y else none)

/-- Line 209-211: the value of one tracked parameter in one report. -/
def reportValue (r : LakeReport) (param : String) : Option ℚ :=
  if param = "compliance_score" then r.compliance_score else r.metricsMap param

/-- Result of `analyze_parameter_trends` (the `trends` dict, lines 175-181).
`key_findings`/`recommendations` are templated display strings not consumed
by any claim and omitted. -/
structure TrendAnalysis where
  years : List ℤ
  parameters : List (String × TrendStats)
  overall_trajectory : String
deriving Repr

/-- `LakeAssessment._determine_overall_trajectory` (lines 288-337): tally
favorable/unfavorable directions per parameter and bucket into a label.
A parameter contributes only when its `direction` is non-`None` (Python
truthiness on the non-empty direction strings). -/
def determineOverallTrajectory (params : List (String × TrendStats)) : String :=
  let higherBetter := ["dissolved_oxygen_min", "compliance_score"]
  let lowerBetter := ["hypoxic_volume", "hypoxic_percentage", "orthophosphate_max",
    "ammonia_max", "cyanobacteria_percentage"]
  let tally := params.foldl (fun (acc : ℕ × ℕ × ℕ) p =>
    match p.2.direction with
    | none => acc
    | some dir =>
      if higherBetter.contains p.1 then
        match dir with
        | .increasing => (acc.1 + 1, acc.2.1, acc.2.2)
        | .decreasing => (acc.1, acc.2.1 + 1, acc.2.2)
        | _ => (acc.1, acc.2.1, acc.2.2 + 1)
      else if lowerBetter.contains p.1 then
        match dir with
        | .decreasing => (acc.1 + 1, acc.2.1, acc.2.2)
        | .increasing => (acc.1, acc.2.1 + 1, acc.2.2)
        | _ => (acc.1, acc.2.1, acc.2.2 + 1)
      else acc) (0, 0, 0)
  let improving := tally.1
  let degrading := tally.2.1
  if degrading > improving then
    if degrading ≥ 3 then "Significant Degradation - Immediate Action Required"
    else "Gradual Degradation - Intervention Recommended"
  else if improving > degrading then
    if improving ≥ 3 then "Significant Improvement - Continue Current Management"
    else "Gradual Improvement - Maintain Efforts"
  else "Stable - Monitor Closely for Changes"

/-- `LakeAssessment.analyze_parameter_trends` (lines 165-230).  Note the gate
at lines 187-189 compares `len(years)` — the count of year-bearing records,
not of distinct years — against `minimum_reports_for_trends`. -/
def analyzeParameterTrends (reg : List (ℤ × ℚ) → ℚ × ℚ)
    (reports : List LakeReport) : TrendAnalysis :=
  let years := reportYears reports
  if years.length < minimumReportsForTrends then
    { years := years, parameters := [],
      overall_trajectory := "Insufficient data for trend analysis" }
  else
    let params := parametersToTrack.filterMap (fun param =>
      let values := reports.map (fun r => reportValue r param)
      if values.any Option.isSome then some (param, calculateTrend reg years values)
      else none)
    { years := years, parameters := params,
      overall_trajectory := determineOverallTrajectory params }

/-- One lake's assessment as built by `perform_assessment` (lines 466-472);
the `year_range` display string is omitted. -/
structure LakeAssessmentResult where
  reports_analyzed : ℕ
  trend_analysis : TrendAnalysis
deriving Repr

/-- The per-lake-group body of `LakeAssessment.perform_assessment`
(lines 459-477): the group is assessed only when it has at least
`minimum_reports_for_trends` *distinct* (truthy) years — `len(set(years)) >=
self.minimum_reports_for_trends` — and is otherwise skipped entirely (the
lake does not appear in the returned `assessments` dict). -/
def assessLakeGroup (reg : List (ℤ × ℚ) → ℚ × ℚ)
    (lake_reports : List LakeReport) : Option LakeAssessmentResult :=
  let years := reportYears lake_reports
  if minimumReportsForTrends ≤ years.dedup.length then
    some { reports_analyzed := lake_reports.length,
           trend_analysis := analyzeParameterTrends reg lake_reports }
  else none

/-! ## Concrete records and spec-side predicates used in the theorems -/

/-- `i` is the index of the first DO value strictly below the 2.5 mg/L
hypoxia threshold. -/
def IsFirstBelowAt (dvs : List ℚ) (i : ℕ) : Prop :=
  (∃ v, dvs[i]? = some v ∧ v < 5/2) ∧
  ∀ j, j < i → ∀ v, dvs[j]? = some v → ¬ v < 5/2

/-- DO record holding only an oxycline depth (the single `ExtractedDOData`
field read by `_perform_calculations`). -/
def ddOxy (o : Option ℚ) : ExtractedDOData :=
  { has_do_measurements := false, do_values := [], depths_measured := [],
    oxycline_depth := o, minimum_do := none }

/-- Nutrient record holding a hypolimnion SRP value. -/
def ndSRP (s : Option ℚ) : ExtractedNutrientData := ⟨s⟩

/-- Hypsographic record with no hypsographic table and the stated max depth,
total volume and surface area; `can_calculate_hypoxic_volume` is exactly what
`_extract_hypsographic_data` would set. -/
def hdMVT (maxd vol surf : Option ℚ) : HypsographicData :=
  { has_hypsographic_table := false, max_depth := maxd, total_volume := vol,
    total_surface_area := surf,
    can_calculate_hypoxic_volume := vol.isSome && maxd.isSome }

/-- A constant stand-in regression backend for closed instances (the claims
quantify over the backend). -/
def regConst : List (ℤ × ℚ) → ℚ × ℚ := fun _ => (1, 1)

/-- A lake report record carrying only an extracted year (no metric values,
no compliance score). -/
def mkReport (y : Option ℤ) : LakeReport :=
  { extracted_year := y, metricsMap := fun _ => none, compliance_score := none }

/-! ## Helper lemmas -/

theorem truthy_some_iff (q : ℚ) : truthy (some q) = true ↔ q ≠ 0 := by
  simp [truthy]

theorem truthy_eq_true_iff (o : Option ℚ) :
    truthy o = true ↔ ∃ q, o = some q ∧ q ≠ 0 := by
  cases o <;> simp [truthy]

theorem listMin_eq_none_iff (l : List ℚ) : listMin l = none ↔ l = [] := by
  cases l with
  | nil => simp [listMin]
  | cons x xs =>
    simp only [listMin]
    cases listMin xs <;> simp

theorem listMin_spec (l : List ℚ) (m : ℚ) (h : listMin l = some m) :
    m ∈ l ∧ ∀ x ∈ l, m ≤ x := by
  induction l generalizing m with
  | nil => simp [listMin] at h
  | cons x xs ih =>
    rw [listMin] at h
    cases hxs : listMin xs with
    | none =>
      rw [hxs] at h
      have hnil : xs = [] := (listMin_eq_none_iff xs).mp hxs
      subst hnil
      simp only [Option.some.injEq] at h
      subst h
      simp
    | some mm =>
      rw [hxs] at h
      simp only [Option.some.injEq] at h
      subst h
      obtain ⟨hmem, hle⟩ := ih mm hxs
      constructor
      · rcases min_choice x mm with hc | hc <;> rw [hc]
        · exact List.mem_cons_self x xs
        · exact List.mem_cons_of_mem x hmem
      · intro y hy
        rcases List.mem_cons.mp hy with rfl | hy'
        · exact min_le_left _ _
        · exact le_trans (min_le_right _ _) (hle y hy')

/-! ## Claim theorems -/

/-- Claim C5 (confirmed).  The final compliance score is
`max(0, min(100, 50 + overall_score))` where `overall_score` is the sum of
the weighted deltas accumulated by the evaluators starting from `0`
(compliance_engine.py lines 35 and 1065-1069): any delta sum below `-50`
clamps to exactly `0`, any sum above `+50` clamps to exactly `100`, a
document with no signal (zero deltas) scores exactly `50`, and the result
always lies in `[0, 100]` — moreover inside `[-50, 50]` the score is exactly
`50 +` the sum. -/
theorem compliance_score_clamped (deltas : List ℚ) :
    calculateScore deltas.sum = max 0 (min 100 (50 + deltas.sum)) ∧
    (deltas.sum < -50 → calculateScore deltas.sum = 0) ∧
    (50 < deltas.sum → calculateScore deltas.sum = 100) ∧
    (deltas.sum = 0 → calculateScore deltas.sum = 50) ∧
    (-50 ≤ deltas.sum → deltas.sum ≤ 50 →
      calculateScore deltas.sum = 50 + deltas.sum) ∧
    0 ≤ calculateScore deltas.sum ∧ calculateScore deltas.sum ≤ 100 := by
  set s := deltas.sum with hs
  unfold calculateScore
  refine ⟨rfl, ?_, ?_, ?_, ?_, le_max_left 0 _, ?_⟩
  · intro h
    rw [min_eq_right (by linarith : (50 + s : ℚ) ≤ 100),
      max_eq_left (by linarith : (50 + s : ℚ) ≤ 0)]
  · intro h
    rw [min_eq_left (by linarith : (100 : ℚ) ≤ 50 + s)]
    norm_num
  · intro h
    rw [h]
    norm_num
  · intro h1 h2
    rw [min_eq_right (by linarith : (50 + s : ℚ) ≤ 100),
      max_eq_right (by linarith : (0 : ℚ) ≤ 50 + s)]
  · exact max_le (by norm_num) (le_trans (min_le_left _ _) (by norm_num))

/-- Witness for C5 at concrete delta lists. -/
theorem compliance_score_clamped_witness :
    calculateScore ([-40, -20] : List ℚ).sum = 0 ∧
    calculateScore ([70] : List ℚ).sum = 100 ∧
    calculateScore ([] : List ℚ).sum = 50 :=
  ⟨(compliance_score_clamped [-40, -20]).2.1 (by norm_num),
   (compliance_score_clamped [70]).2.2.1 (by norm_num),
   (compliance_score_clamped []).2.2.2.1 (by norm_num)⟩

theorem oxyclineScan_eq_some_iff (dvs : List ℚ) :
    ∀ depths : List ℚ, dvs.length = depths.length → ∀ d : ℚ,
      (oxyclineScan dvs depths = some d ↔
        ∃ i, IsFirstBelowAt dvs i ∧ depths[i]? = some d) := by
  induction dvs with
  | nil =>
    intro depths _ d
    simp [oxyclineScan, IsFirstBelowAt]
  | cons v vs ih =>
    intro depths hlen d
    cases depths with
    | nil => simp at hlen
    | cons d0 ds =>
      simp only [List.length_cons, Nat.add_right_cancel_iff] at hlen
      by_cases hv : v < 5/2
      · rw [oxyclineScan, if_pos hv]
        constructor
        · intro h
          simp only [Option.some.injEq] at h
          exact ⟨0, ⟨⟨v, by simp, hv⟩, by omega⟩, by simp [h]⟩
        · rintro ⟨i, ⟨⟨w, hw, hwlt⟩, hfirst⟩, hdep⟩
          cases i with
          | zero => simpa using hdep
          | succ i' => exact absurd hv (hfirst 0 (Nat.succ_pos i') v (by simp))
      · rw [oxyclineScan, if_neg hv]
        rw [ih ds hlen d]
        constructor
        · rintro ⟨i, ⟨⟨w, hw, hwlt⟩, hfirst⟩, hdep⟩
          refine ⟨i + 1, ⟨⟨w, by simpa using hw, hwlt⟩, ?_⟩, by simpa using hdep⟩
          intro j hj w' hw'
          cases j with
          | zero =>
            simp only [List.getElem?_cons_zero, Option.some.injEq] at hw'
            subst hw'
            exact hv
          | succ j' =>
            exact hfirst j' (by omega) w' (by simpa using hw')
        · rintro ⟨i, ⟨⟨w, hw, hwlt⟩, hfirst⟩, hdep⟩
          cases i with
          | zero =>
            simp only [List.getElem?_cons_zero, Option.some.injEq] at hw
            subst hw
            exact absurd hwlt hv
          | succ i' =>
            refine ⟨i', ⟨⟨w, by simpa using hw, hwlt⟩, ?_⟩, by simpa using hdep⟩
            intro j hj w' hw'
            exact hfirst (j + 1) (by omega) w' (by simpa using hw')

/-- Claim C8 (confirmed).  When the DO-value and depth arrays are non-empty and
of equal length, the extracted `oxycline_depth` is the depth at the index of
the first DO value strictly below 2.5 mg/L (and `none` when no such value
exists — the iff fully determines the result); when the lengths differ the
result is `none`; in particular DO values `[8.5, 6.2, 1.2]` with depths
`[0, 5, 10]` yield oxycline depth `10`. -/
theorem oxycline_first_below (dvs depths : List ℚ) :
    (dvs.length ≠ depths.length → oxyclineDepth dvs depths = none) ∧
    (dvs.length = depths.length →
      ∀ d, oxyclineDepth dvs depths = some d ↔
        ∃ i, IsFirstBelowAt dvs i ∧ depths[i]? = some d) ∧
    oxyclineDepth [17/2, 31/5, 6/5] [0, 5, 10] = some 10 := by
  refine ⟨?_, ?_, by norm_num [oxyclineDepth, oxyclineScan]⟩
  · intro hne
    have hb : (dvs.length == depths.length) = false := by simp [hne]
    simp [oxyclineDepth, hb]
  · intro hlen d
    by_cases hd : dvs = []
    · subst hd
      have : depths = [] := List.length_eq_zero.mp hlen.symm
      subst this
      simp [oxyclineDepth, oxyclineScan, IsFirstBelowAt]
    · have h1 : dvs.isEmpty = false := by simp [List.isEmpty_iff, hd]
      have h2 : depths ≠ [] := by
        intro h
        subst h
        exact hd (List.length_eq_zero.mp hlen)
      have h2' : depths.isEmpty = false := by simp [List.isEmpty_iff, h2]
      rw [oxyclineDepth, if_pos (by simp [h1, h2', hlen])]
      exact oxyclineScan_eq_some_iff dvs depths hlen d

/-- Witness for C8: both length-mismatch and equal-length branches exercised
at concrete inputs. -/
theorem oxycline_first_below_witness :
    oxyclineDepth [1] [] = none ∧
    ∃ i, IsFirstBelowAt [17/2, 31/5, 6/5] i ∧
      (([0, 5, 10] : List ℚ))[i]? = some 10 := by
  have h := oxycline_first_below [17/2, 31/5, 6/5] [0, 5, 10]
  exact ⟨(oxycline_first_below [1] []).1 (by decide),
    ((h.2.1 rfl 10).mp h.2.2)⟩

/-! ### Derivation-branch lemmas -/

theorem hypoxicVolumeBranch_preserves (dd : ExtractedDOData) (hd : HypsographicData)
    (m : CalculatedMetrics) :
    (hypoxicVolumeBranch dd hd m).hypoxic_sediment_area = m.hypoxic_sediment_area ∧
    (hypoxicVolumeBranch dd hd m).hypoxic_area_percentage = m.hypoxic_area_percentage ∧
    (hypoxicVolumeBranch dd hd m).phytoplankton_biomass_potential =
      m.phytoplankton_biomass_potential ∧
    (hypoxicVolumeBranch dd hd m).biomass_potential_tonnes = m.biomass_potential_tonnes := by
  unfold hypoxicVolumeBranch
  split <;> simp

theorem sedimentAreaBranch_preserves (sqrtFn : ℚ → ℚ) (hd : HypsographicData)
    (m : CalculatedMetrics) :
    (sedimentAreaBranch sqrtFn hd m).hypoxic_water_volume = m.hypoxic_water_volume ∧
    (sedimentAreaBranch sqrtFn hd m).hypoxic_volume_percentage =
      m.hypoxic_volume_percentage ∧
    (sedimentAreaBranch sqrtFn hd m).phytoplankton_biomass_potential =
      m.phytoplankton_biomass_potential ∧
    (sedimentAreaBranch sqrtFn hd m).biomass_potential_tonnes = m.biomass_potential_tonnes := by
  unfold sedimentAreaBranch
  split <;> simp

theorem biomassBranch_preserves (nd : ExtractedNutrientData) (m : CalculatedMetrics) :
    (biomassBranch nd m).hypoxic_water_volume = m.hypoxic_water_volume ∧
    (biomassBranch nd m).hypoxic_volume_percentage = m.hypoxic_volume_percentage ∧
    (biomassBranch nd m).hypoxic_sediment_area = m.hypoxic_sediment_area ∧
    (biomassBranch nd m).hypoxic_area_percentage = m.hypoxic_area_percentage := by
  unfold biomassBranch
  split
  · simp
  · split
    · simp
    · split <;> simp

/-- Positive characterization of the hypoxic-volume branch: with the guard
satisfied, both fields and the note are set from the conic formula. -/
theorem hypoxicVolumeBranch_pos (dd : ExtractedDOData) (hd : HypsographicData)
    (m : CalculatedMetrics) (O V M : ℚ)
    (hO : dd.oxycline_depth = some O) (hV : hd.total_volume = some V)
    (hM : hd.max_depth = some M)
    (hcc : hd.can_calculate_hypoxic_volume = true) (hV0 : V ≠ 0) (hM0 : M ≠ 0) :
    hypoxicVolumeBranch dd hd m =
      { m with
        hypoxic_water_volume := some (V * ((M - O) / M) ^ 2)
        hypoxic_volume_percentage := some (((M - O) / M) ^ 2 * 100)
        calculation_notes := m.calculation_notes ++ [.hypoxicVolumeEstimated O V] } := by
  unfold hypoxicVolumeBranch
  rw [if_pos]
  · simp [hO, hV, hM]
  · simp [hO, hV, hM, truthy, hV0, hM0, hcc]

/-- The hypoxic-volume branch is a no-op whenever any of the guard inputs is
null, zero, or the can-calculate flag is off. -/
theorem hypoxicVolumeBranch_neg (dd : ExtractedDOData) (hd : HypsographicData)
    (m : CalculatedMetrics)
    (h : dd.oxycline_depth = none ∨ hd.total_volume = none ∨ hd.max_depth = none ∨
      hd.total_volume = some 0 ∨ hd.max_depth = some 0 ∨
      hd.can_calculate_hypoxic_volume = false) :
    hypoxicVolumeBranch dd hd m = m := by
  rcases h with h | h | h | h | h | h <;> simp [hypoxicVolumeBranch, h, truthy]

/-- Inversion: either the branch left the two hypoxic fields untouched, or
the guard held and the fields carry the conic-formula values. -/
theorem hypoxicVolumeBranch_inv (dd : ExtractedDOData) (hd : HypsographicData)
    (m : CalculatedMetrics) :
    ((hypoxicVolumeBranch dd hd m).hypoxic_water_volume = m.hypoxic_water_volume ∧
      (hypoxicVolumeBranch dd hd m).hypoxic_volume_percentage =
        m.hypoxic_volume_percentage) ∨
    ∃ O V M, dd.oxycline_depth = some O ∧ hd.total_volume = some V ∧ V ≠ 0 ∧
      hd.max_depth = some M ∧ M ≠ 0 ∧
      (hypoxicVolumeBranch dd hd m).hypoxic_water_volume =
        some (V * ((M - O) / M) ^ 2) ∧
      (hypoxicVolumeBranch dd hd m).hypoxic_volume_percentage =
        some (((M - O) / M) ^ 2 * 100) := by
  unfold hypoxicVolumeBranch
  split
  case isTrue hcond =>
    simp only [Bool.and_eq_true, Option.isSome_iff_exists] at hcond
    obtain ⟨⟨⟨hcc, O, hO⟩, htv⟩, hmd⟩ := hcond
    obtain ⟨V, hV, hV0⟩ := (truthy_eq_true_iff hd.total_volume).mp htv
    obtain ⟨M, hM, hM0⟩ := (truthy_eq_true_iff hd.max_depth).mp hmd
    right
    exact ⟨O, V, M, hO, hV, hV0, hM, hM0, by simp [hO, hV, hM], by simp [hO, hV, hM]⟩
  case isFalse => exact Or.inl ⟨rfl, rfl⟩

/-- The sediment-area branch is a no-op when the computed percentage is not
truthy (null or zero). -/
theorem sedimentAreaBranch_skip (sqrtFn : ℚ → ℚ) (hd : HypsographicData)
    (m : CalculatedMetrics) (h : truthy m.hypoxic_volume_percentage = false) :
    sedimentAreaBranch sqrtFn hd m = m := by
  unfold sedimentAreaBranch
  rw [if_neg]
  simp [h]

/-- Biomass branch, both inputs truthy: the fields and the note are set. -/
theorem biomassBranch_both (nd : ExtractedNutrientData) (m : CalculatedMetrics)
    (v s : ℚ) (hv : m.hypoxic_water_volume = some v) (hs : nd.hypolimnion_srp = some s)
    (hv0 : v ≠ 0) (hs0 : s ≠ 0) :
    biomassBranch nd m =
      { m with
        phytoplankton_biomass_potential := some (v * s / 1000 * 100)
        biomass_potential_tonnes := some (v * s / 1000 * 100 / 1000)
        calculation_notes := m.calculation_notes ++
          [.biomassPotential (v * s / 1000 * 100 / 1000) (v * s / 1000)] } := by
  unfold biomassBranch
  rw [if_pos (by simp [truthy, hv, hs, hv0, hs0])]
  simp [hv, hs]

/-- Biomass branch, SRP truthy but hypoxic volume not: only the
missing-volume note is appended. -/
theorem biomassBranch_srp_only (nd : ExtractedNutrientData) (m : CalculatedMetrics)
    (hsrp : truthy nd.hypolimnion_srp = true)
    (hvol : truthy m.hypoxic_water_volume = false) :
    biomassBranch nd m =
      { m with calculation_notes := m.calculation_notes ++ [.biomassMissingVolume] } := by
  unfold biomassBranch
  rw [if_neg (by simp [hvol]), if_pos (by simp [hsrp, hvol])]

/-- Biomass branch, hypoxic volume truthy but SRP not: only the missing-SRP
note is appended. -/
theorem biomassBranch_vol_only (nd : ExtractedNutrientData) (m : CalculatedMetrics)
    (hvol : truthy m.hypoxic_water_volume = true)
    (hsrp : truthy nd.hypolimnion_srp = false) :
    biomassBranch nd m =
      { m with calculation_notes := m.calculation_notes ++ [.biomassMissingSRP] } := by
  unfold biomassBranch
  rw [if_neg (by simp [hsrp]), if_neg (by simp [hsrp]), if_pos (by simp [hvol, hsrp])]

/-- Biomass branch, neither input truthy: a no-op. -/
theorem biomassBranch_skip (nd : ExtractedNutrientData) (m : CalculatedMetrics)
    (hvol : truthy m.hypoxic_water_volume = false)
    (hsrp : truthy nd.hypolimnion_srp = false) :
    biomassBranch nd m = m := by
  unfold biomassBranch
  rw [if_neg (by simp [hvol]), if_neg (by simp [hsrp]), if_neg (by simp [hvol])]

/-- The biomass fields are still null going into the biomass branch (neither
earlier branch writes them). -/
theorem pre_biomass_fields_none (sqrtFn : ℚ → ℚ) (dd : ExtractedDOData)
    (hd : HypsographicData) :
    (sedimentAreaBranch sqrtFn hd
      (hypoxicVolumeBranch dd hd emptyMetrics)).phytoplankton_biomass_potential = none ∧
    (sedimentAreaBranch sqrtFn hd
      (hypoxicVolumeBranch dd hd emptyMetrics)).biomass_potential_tonnes = none := by
  have h1 := hypoxicVolumeBranch_preserves dd hd emptyMetrics
  have h2 := sedimentAreaBranch_preserves sqrtFn hd (hypoxicVolumeBranch dd hd emptyMetrics)
  exact ⟨by rw [h2.2.2.1, h1.2.2.1]; rfl, by rw [h2.2.2.2, h1.2.2.2]; rfl⟩

/-- Claim C1 counterexample.  The claim asserts the hypoxic-volume fields are
computed whenever `total_volume`, `max_depth`, `oxycline_depth` are all
non-null and `max_depth` is nonzero.  With `total_volume` extracted as `0`
(non-null), `max_depth = 20 ≠ 0` and `oxycline_depth = 12`, the inner guard
`if hypso_data.total_volume and hypso_data.max_depth:` (Python truthiness,
advanced_analysis.py line 432) is false, so the code leaves both fields
null — while the claim requires `hypoxic_volume_pct = some 16`. -/
theorem hypoxic_volume_fails_on_zero_total_volume :
    (hdMVT (some 20) (some 0) none).total_volume = some 0 ∧
    (hdMVT (some 20) (some 0) none).max_depth = some 20 ∧
    (hdMVT (some 20) (some 0) none).can_calculate_hypoxic_volume =
      canCalcHypoxic (hdMVT (some 20) (some 0) none) ∧
    (ddOxy (some 12)).oxycline_depth = some 12 ∧
    (performCalculations id (ddOxy (some 12)) (ndSRP none)
      (hdMVT (some 20) (some 0) none)).hypoxic_water_volume = none ∧
    (performCalculations id (ddOxy (some 12)) (ndSRP none)
      (hdMVT (some 20) (some 0) none)).hypoxic_volume_percentage = none := by
  refine ⟨rfl, rfl, rfl, rfl, ?_, ?_⟩ <;> decide

/-- Claim C1 (amended: `total_volume` must additionally be nonzero, exactly as
`max_depth` must — the inner guard is by Python truthiness).  For every
extracted data set (`can_calculate_hypoxic_volume` as set by
`_extract_hypsographic_data`) with `total_volume = some V ≠ 0`,
`max_depth = some M ≠ 0` and `oxycline_depth = some O`, the derivation sets
`hypoxic_volume_m3 = V * ((M - O) / M)²` and
`hypoxic_volume_pct = ((M - O) / M)² * 100`; if any of the three inputs is
null, both fields are left null. -/
theorem hypoxic_volume_formula (sqrtFn : ℚ → ℚ) (dd : ExtractedDOData)
    (nd : ExtractedNutrientData) (hd : HypsographicData)
    (hext : hd.can_calculate_hypoxic_volume = canCalcHypoxic hd) :
    (∀ O V M, dd.oxycline_depth = some O → hd.total_volume = some V → V ≠ 0 →
      hd.max_depth = some M → M ≠ 0 →
      (performCalculations sqrtFn dd nd hd).hypoxic_water_volume =
        some (V * ((M - O) / M) ^ 2) ∧
      (performCalculations sqrtFn dd nd hd).hypoxic_volume_percentage =
        some (((M - O) / M) ^ 2 * 100)) ∧
    ((dd.oxycline_depth = none ∨ hd.total_volume = none ∨ hd.max_depth = none) →
      (performCalculations sqrtFn dd nd hd).hypoxic_water_volume = none ∧
      (performCalculations sqrtFn dd nd hd).hypoxic_volume_percentage = none) := by
  have hpres2 := sedimentAreaBranch_preserves sqrtFn hd
    (hypoxicVolumeBranch dd hd emptyMetrics)
  have hpres3 := biomassBranch_preserves nd
    (sedimentAreaBranch sqrtFn hd (hypoxicVolumeBranch dd hd emptyMetrics))
  constructor
  · intro O V M hO hV hV0 hM hM0
    have hcc : hd.can_calculate_hypoxic_volume = true := by
      rw [hext]
      unfold canCalcHypoxic
      simp [hV, hM]
    have hb := hypoxicVolumeBranch_pos dd hd emptyMetrics O V M hO hV hM hcc hV0 hM0
    unfold performCalculations
    rw [hpres3.1, hpres3.2.1, hpres2.1, hpres2.2.1, hb]
    exact ⟨rfl, rfl⟩
  · intro h
    have hb := hypoxicVolumeBranch_neg dd hd emptyMetrics
      (by rcases h with h | h | h
          · exact Or.inl h
          · exact Or.inr (Or.inl h)
          · exact Or.inr (Or.inr (Or.inl h)))
    unfold performCalculations
    rw [hpres3.1, hpres3.2.1, hpres2.1, hpres2.2.1, hb]
    exact ⟨rfl, rfl⟩

/-- Witness for C1 at the spec's concrete instance: `max_depth = 20`,
`oxycline_depth = 12`, `total_volume = 100000` give
`hypoxic_volume_m3 = 16000` and `hypoxic_volume_pct = 16`; a null oxycline
leaves both fields null. -/
theorem hypoxic_volume_formula_witness :
    (performCalculations id (ddOxy (some 12)) (ndSRP none)
      (hdMVT (some 20) (some 100000) none)).hypoxic_water_volume = some 16000 ∧
    (performCalculations id (ddOxy (some 12)) (ndSRP none)
      (hdMVT (some 20) (some 100000) none)).hypoxic_volume_percentage = some 16 ∧
    (performCalculations id (ddOxy none) (ndSRP none)
      (hdMVT (some 20) (some 100000) none)).hypoxic_water_volume = none := by
  have h := (hypoxic_volume_formula id (ddOxy (some 12)) (ndSRP none)
    (hdMVT (some 20) (some 100000) none) rfl).1 12 100000 20 rfl rfl
    (by norm_num) rfl (by norm_num)
  have h' := (hypoxic_volume_formula id (ddOxy none) (ndSRP none)
    (hdMVT (some 20) (some 100000) none) rfl).2 (Or.inl rfl)
  refine ⟨?_, ?_, h'.1⟩
  · rw [h.1]
    norm_num
  · rw [h.2]
    norm_num

/-- Claim C9 (confirmed).  Division guards: a `max_depth` or `total_volume`
extracted as zero makes the hypoxic-volume branch a no-op (both fields stay
null, matching "cannot compute"); the conic division only ever runs when
both are non-null and nonzero (whenever `hypoxic_water_volume` is set, both
were truthy); and the percentage-change division of `_calculate_trend` runs
only when the first cleaned value is nonzero — a zero first value yields
`change_rate = none` while a nonzero one yields the computed percentage. -/
theorem division_guards (sqrtFn : ℚ → ℚ) (dd : ExtractedDOData)
    (nd : ExtractedNutrientData) (hd : HypsographicData)
    (reg : List (ℤ × ℚ) → ℚ × ℚ) (years : List ℤ) (values : List (Option ℚ)) :
    (hd.max_depth = some 0 →
      (performCalculations sqrtFn dd nd hd).hypoxic_water_volume = none ∧
      (performCalculations sqrtFn dd nd hd).hypoxic_volume_percentage = none) ∧
    (hd.total_volume = some 0 →
      (performCalculations sqrtFn dd nd hd).hypoxic_water_volume = none ∧
      (performCalculations sqrtFn dd nd hd).hypoxic_volume_percentage = none) ∧
    ((performCalculations sqrtFn dd nd hd).hypoxic_water_volume ≠ none →
      truthy hd.max_depth = true ∧ truthy hd.total_volume = true) ∧
    (∀ p, (cleanData years values).head? = some p → p.2 = 0 →
      (calculateTrend reg years values).change_rate = none) ∧
    (∀ p q, 2 ≤ (cleanData years values).length →
      (cleanData years values).head? = some p →
      (cleanData years values).getLast? = some q → p.2 ≠ 0 →
      (calculateTrend reg years values).change_rate =
        some ((q.2 - p.2) / |p.2| * 100)) := by
  have hpres2 := sedimentAreaBranch_preserves sqrtFn hd
    (hypoxicVolumeBranch dd hd emptyMetrics)
  have hpres3 := biomassBranch_preserves nd
    (sedimentAreaBranch sqrtFn hd (hypoxicVolumeBranch dd hd emptyMetrics))
  refine ⟨?_, ?_, ?_, ?_, ?_⟩
  · intro h
    have hb := hypoxicVolumeBranch_neg dd hd emptyMetrics
      (Or.inr (Or.inr (Or.inr (Or.inr (Or.inl h)))))
    unfold performCalculations
    rw [hpres3.1, hpres3.2.1, hpres2.1, hpres2.2.1, hb]
    exact ⟨rfl, rfl⟩
  · intro h
    have hb := hypoxicVolumeBranch_neg dd hd emptyMetrics
      (Or.inr (Or.inr (Or.inr (Or.inl h))))
    unfold performCalculations
    rw [hpres3.1, hpres3.2.1, hpres2.1, hpres2.2.1, hb]
    exact ⟨rfl, rfl⟩
  · intro h
    rcases hypoxicVolumeBranch_inv dd hd emptyMetrics with ⟨h1, _⟩ | hpos
    · exfalso
      apply h
      unfold performCalculations
      rw [hpres3.1, hpres2.1, h1]
      rfl
    · obtain ⟨O, V, M, _, hV, hV0, hM, hM0, _, _⟩ := hpos
      rw [hV, hM]
      exact ⟨(truthy_some_iff M).mpr hM0, (truthy_some_iff V).mpr hV0⟩
  · intro p hp hp0
    unfold calculateTrend
    dsimp only
    split
    · rfl
    · simp [hp, hp0]
  · intro p q hlen hp hq hp0
    unfold calculateTrend
    dsimp only
    split
    · exfalso
      omega
    · simp [hp, hq, hp0]

/-- Witness for C9: a zero `max_depth` leaves the hypoxic fields null; a
zero first cleaned value yields a null `change_rate`; a nonzero first value
yields the computed percentage change. -/
theorem division_guards_witness :
    (performCalculations id (ddOxy (some 12)) (ndSRP none)
      (hdMVT (some 0) (some 100000) none)).hypoxic_water_volume = none ∧
    (calculateTrend regConst [2020, 2021] [some 0, some 4]).change_rate = none ∧
    (calculateTrend regConst [2020, 2021] [some 2, some 3]).change_rate = some 50 := by
  have h := division_guards id (ddOxy (some 12)) (ndSRP none)
    (hdMVT (some 0) (some 100000) none) regConst [2020, 2021] [some 0, some 4]
  have h' := division_guards id (ddOxy (some 12)) (ndSRP none)
    (hdMVT (some 0) (some 100000) none) regConst [2020, 2021] [some 2, some 3]
  refine ⟨(h.1 rfl).1, ?_, ?_⟩
  · exact h.2.2.2.1 (2020, 0) (by decide) rfl
  · have := h'.2.2.2.2 (2020, 2) (2021, 3) (by decide) (by decide) (by decide)
      (by norm_num)
    rw [this]
    norm_num

/-- Claim C2 counterexample.  The claim asserts the biomass fields are computed
whenever both `hypoxic_volume_m3` and `srp_hypolimnion` are present.  With
`hypoxic_volume_m3 = some 16000` and `srp_hypolimnion = some 0` — both
present (non-null) — the guard `if metrics.hypoxic_water_volume and
nutrient_data.hypolimnion_srp:` (Python truthiness, advanced_analysis.py
line 463) fails on the zero SRP, so the biomass fields stay null while the
claim requires `total_P_kg = 0`, `biomass_potential_* = some 0`. -/
theorem biomass_fails_on_zero_srp :
    (performCalculations id (ddOxy (some 12)) (ndSRP (some 0))
      (hdMVT (some 20) (some 100000) none)).hypoxic_water_volume = some 16000 ∧
    (ndSRP (some 0)).hypolimnion_srp = some 0 ∧
    (performCalculations id (ddOxy (some 12)) (ndSRP (some 0))
      (hdMVT (some 20) (some 100000) none)).phytoplankton_biomass_potential = none ∧
    (performCalculations id (ddOxy (some 12)) (ndSRP (some 0))
      (hdMVT (some 20) (some 100000) none)).biomass_potential_tonnes = none := by
  refine ⟨?_, rfl, ?_, ?_⟩ <;>
    norm_num [performCalculations, hypoxicVolumeBranch, sedimentAreaBranch,
      biomassBranch, emptyMetrics, truthy, ddOxy, ndSRP, hdMVT]

/-- Claim C2 (amended: "present" must be strengthened to "present and nonzero"
— the `if`/`elif` chain tests Python truthiness, under which a present value
of `0.0` behaves like `None`).  When the computed `hypoxic_volume_m3 = v ≠ 0`
and `srp_hypolimnion = s ≠ 0`, the derivation sets
`biomass_potential_kg = (v*s/1000)*100` and
`biomass_potential_tonnes = that/1000` and appends the computed-biomass
note; when exactly one of the two is truthy, the biomass fields stay null
and the note identifying the missing half is appended. -/
theorem biomass_potential_rules (sqrtFn : ℚ → ℚ) (dd : ExtractedDOData)
    (nd : ExtractedNutrientData) (hd : HypsographicData) :
    (∀ v s, (performCalculations sqrtFn dd nd hd).hypoxic_water_volume = some v →
      v ≠ 0 → nd.hypolimnion_srp = some s → s ≠ 0 →
      (performCalculations sqrtFn dd nd hd).phytoplankton_biomass_potential =
        some (v * s / 1000 * 100) ∧
      (performCalculations sqrtFn dd nd hd).biomass_potential_tonnes =
        some (v * s / 1000 * 100 / 1000) ∧
      CalcNote.biomassPotential (v * s / 1000 * 100 / 1000) (v * s / 1000) ∈
        (performCalculations sqrtFn dd nd hd).calculation_notes) ∧
    (truthy nd.hypolimnion_srp = true →
      truthy (performCalculations sqrtFn dd nd hd).hypoxic_water_volume = false →
      (performCalculations sqrtFn dd nd hd).phytoplankton_biomass_potential = none ∧
      (performCalculations sqrtFn dd nd hd).biomass_potential_tonnes = none ∧
      CalcNote.biomassMissingVolume ∈
        (performCalculations sqrtFn dd nd hd).calculation_notes) ∧
    (truthy (performCalculations sqrtFn dd nd hd).hypoxic_water_volume = true →
      truthy nd.hypolimnion_srp = false →
      (performCalculations sqrtFn dd nd hd).phytoplankton_biomass_potential = none ∧
      (performCalculations sqrtFn dd nd hd).biomass_potential_tonnes = none ∧
      CalcNote.biomassMissingSRP ∈
        (performCalculations sqrtFn dd nd hd).calculation_notes) := by
  have hpc : performCalculations sqrtFn dd nd hd =
      biomassBranch nd (sedimentAreaBranch sqrtFn hd
        (hypoxicVolumeBranch dd hd emptyMetrics)) := rfl
  set m2 := sedimentAreaBranch sqrtFn hd (hypoxicVolumeBranch dd hd emptyMetrics)
    with hm2def
  have hpres := biomassBranch_preserves nd m2
  have hnone := pre_biomass_fields_none sqrtFn dd hd
  rw [← hm2def] at hnone
  refine ⟨?_, ?_, ?_⟩
  · intro v s hv hv0 hs hs0
    rw [hpc] at hv ⊢
    have hm2v : m2.hypoxic_water_volume = some v := by rw [← hpres.1]; exact hv
    rw [biomassBranch_both nd m2 v s hm2v hs hv0 hs0]
    refine ⟨rfl, rfl, ?_⟩
    simp
  · intro hsrp hvol
    rw [hpc] at hvol ⊢
    rw [hpres.1] at hvol
    rw [biomassBranch_srp_only nd m2 hsrp hvol]
    exact ⟨hnone.1, hnone.2, by simp⟩
  · intro hvol hsrp
    rw [hpc] at hvol ⊢
    rw [hpres.1] at hvol
    rw [biomassBranch_vol_only nd m2 hvol hsrp]
    exact ⟨hnone.1, hnone.2, by simp⟩

/-- Witness for C2, exercising all three clauses: the spec's concrete
instance `hypoxic_volume_m3 = 16000`, `srp = 0.1` gives
`biomass_potential_kg = 160` and `biomass_potential_tonnes = 0.16`; SRP with
no volume appends the missing-volume note; volume with no SRP appends the
missing-SRP note. -/
theorem biomass_potential_rules_witness :
    (performCalculations id (ddOxy (some 12)) (ndSRP (some (1/10)))
      (hdMVT (some 20) (some 100000) none)).phytoplankton_biomass_potential =
        some 160 ∧
    (performCalculations id (ddOxy (some 12)) (ndSRP (some (1/10)))
      (hdMVT (some 20) (some 100000) none)).biomass_potential_tonnes =
        some (4/25) ∧
    CalcNote.biomassMissingVolume ∈
      (performCalculations id (ddOxy none) (ndSRP (some (1/10)))
        (hdMVT (some 20) (some 100000) none)).calculation_notes ∧
    CalcNote.biomassMissingSRP ∈
      (performCalculations id (ddOxy (some 12)) (ndSRP none)
        (hdMVT (some 20) (some 100000) none)).calculation_notes := by
  have h1 := (biomass_potential_rules id (ddOxy (some 12)) (ndSRP (some (1/10)))
    (hdMVT (some 20) (some 100000) none)).1 16000 (1/10)
    (by norm_num [performCalculations, hypoxicVolumeBranch, sedimentAreaBranch,
      biomassBranch, emptyMetrics, truthy, ddOxy, ndSRP, hdMVT])
    (by norm_num) rfl (by norm_num)
  have h2 := (biomass_potential_rules id (ddOxy none) (ndSRP (some (1/10)))
    (hdMVT (some 20) (some 100000) none)).2.1
    (by norm_num [truthy, ndSRP])
    (by norm_num [performCalculations, hypoxicVolumeBranch, sedimentAreaBranch,
      biomassBranch, emptyMetrics, truthy, ddOxy, ndSRP, hdMVT])
  have h3 := (biomass_potential_rules id (ddOxy (some 12)) (ndSRP none)
    (hdMVT (some 20) (some 100000) none)).2.2
    (by norm_num [performCalculations, hypoxicVolumeBranch, sedimentAreaBranch,
      biomassBranch, emptyMetrics, truthy, ddOxy, ndSRP, hdMVT])
    (by norm_num [truthy, ndSRP])
  refine ⟨?_, ?_, h2.2.2, h3.2.2⟩
  · rw [h1.1]
    norm_num
  · rw [h1.2.1]
    norm_num

/-- Claim C10 counterexample.  The claim asserts that whenever the conic
computation yields `hypoxic_water_volume = 0` and `srp_hypolimnion` is
present, the missing-volume note is appended.  With `oxycline_depth =
max_depth = 20`, `total_volume = 100000` and `srp_hypolimnion = some 0`
(present, zero), `hypoxic_water_volume` is computed as `some 0`, yet the
whole `elif` chain of advanced_analysis.py lines 482-491 is skipped
(`nutrient_data.hypolimnion_srp` is falsy too), so no note is appended. -/
theorem zero_volume_note_fails_on_zero_srp :
    (performCalculations id (ddOxy (some 20)) (ndSRP (some 0))
      (hdMVT (some 20) (some 100000) (some 5000))).hypoxic_water_volume = some 0 ∧
    (ndSRP (some 0)).hypolimnion_srp = some 0 ∧
    CalcNote.biomassMissingVolume ∉
      (performCalculations id (ddOxy (some 20)) (ndSRP (some 0))
        (hdMVT (some 20) (some 100000) (some 5000))).calculation_notes := by
  refine ⟨?_, rfl, ?_⟩ <;>
    norm_num [performCalculations, hypoxicVolumeBranch, sedimentAreaBranch,
      biomassBranch, emptyMetrics, truthy, ddOxy, ndSRP, hdMVT]
  exact fun h => by cases h

/-- Claim C10 (amended: the missing-volume note requires `srp_hypolimnion`
present *and nonzero* — the `elif` tests Python truthiness).  A computed
`hypoxic_water_volume = some 0` (exactly the case `oxycline_depth =
max_depth` under the branch guard) forces `hypoxic_volume_percentage =
some 0` and is treated as absent by both downstream consumers: the
sediment-area branch is skipped (a computed percentage of `0` suffices by
itself), the biomass branch leaves its fields null, and when the SRP is
truthy the hypoxic-volume-unknown note is appended even though the volume
was computed as `0`. -/
theorem zero_hypoxic_volume_treated_as_absent (sqrtFn : ℚ → ℚ)
    (dd : ExtractedDOData) (nd : ExtractedNutrientData) (hd : HypsographicData) :
    ((performCalculations sqrtFn dd nd hd).hypoxic_water_volume = some 0 →
      (performCalculations sqrtFn dd nd hd).hypoxic_volume_percentage = some 0) ∧
    ((performCalculations sqrtFn dd nd hd).hypoxic_volume_percentage = some 0 →
      (performCalculations sqrtFn dd nd hd).hypoxic_sediment_area = none ∧
      (performCalculations sqrtFn dd nd hd).hypoxic_area_percentage = none) ∧
    ((performCalculations sqrtFn dd nd hd).hypoxic_water_volume = some 0 →
      (performCalculations sqrtFn dd nd hd).phytoplankton_biomass_potential = none ∧
      (performCalculations sqrtFn dd nd hd).biomass_potential_tonnes = none ∧
      (truthy nd.hypolimnion_srp = true →
        CalcNote.biomassMissingVolume ∈
          (performCalculations sqrtFn dd nd hd).calculation_notes)) ∧
    (∀ O V M, dd.oxycline_depth = some O → hd.total_volume = some V → V ≠ 0 →
      hd.max_depth = some M → M ≠ 0 → hd.can_calculate_hypoxic_volume = true →
      ((performCalculations sqrtFn dd nd hd).hypoxic_water_volume = some 0 ↔
        O = M)) := by
  have hpc : performCalculations sqrtFn dd nd hd =
      biomassBranch nd (sedimentAreaBranch sqrtFn hd
        (hypoxicVolumeBranch dd hd emptyMetrics)) := rfl
  have hsed := sedimentAreaBranch_preserves sqrtFn hd
    (hypoxicVolumeBranch dd hd emptyMetrics)
  have hbio := biomassBranch_preserves nd
    (sedimentAreaBranch sqrtFn hd (hypoxicVolumeBranch dd hd emptyMetrics))
  have hhyp := hypoxicVolumeBranch_preserves dd hd emptyMetrics
  have hnone := pre_biomass_fields_none sqrtFn dd hd
  have hA : (performCalculations sqrtFn dd nd hd).hypoxic_water_volume =
      (hypoxicVolumeBranch dd hd emptyMetrics).hypoxic_water_volume := by
    rw [hpc, hbio.1, hsed.1]
  have hB : (performCalculations sqrtFn dd nd hd).hypoxic_volume_percentage =
      (hypoxicVolumeBranch dd hd emptyMetrics).hypoxic_volume_percentage := by
    rw [hpc, hbio.2.1, hsed.2.1]
  refine ⟨?_, ?_, ?_, ?_⟩
  · intro h0
    rw [hA] at h0
    rcases hypoxicVolumeBranch_inv dd hd emptyMetrics with
      ⟨h1, _⟩ | ⟨O, V, M, hO, hV, hV0, hM, hM0, hhv, hpct⟩
    · rw [h1] at h0
      exact absurd h0 (by simp [emptyMetrics])
    · rw [hhv] at h0
      have h0' : V * ((M - O) / M) ^ 2 = 0 := Option.some.inj h0
      have hx : ((M - O) / M) ^ 2 = 0 := by
        rcases mul_eq_zero.mp h0' with h | h
        · exact absurd h hV0
        · exact h
      rw [hB, hpct, hx]
      norm_num
  · intro h0
    rw [hB] at h0
    have hskip : sedimentAreaBranch sqrtFn hd (hypoxicVolumeBranch dd hd emptyMetrics) =
        hypoxicVolumeBranch dd hd emptyMetrics :=
      sedimentAreaBranch_skip sqrtFn hd _ (by rw [h0]; norm_num [truthy])
    constructor
    · rw [hpc, hbio.2.2.1, hskip, hhyp.1]
      rfl
    · rw [hpc, hbio.2.2.2, hskip, hhyp.2.1]
      rfl
  · intro h0
    rw [hA] at h0
    have hm2v : (sedimentAreaBranch sqrtFn hd
        (hypoxicVolumeBranch dd hd emptyMetrics)).hypoxic_water_volume = some 0 := by
      rw [hsed.1]
      exact h0
    have htr : truthy (sedimentAreaBranch sqrtFn hd
        (hypoxicVolumeBranch dd hd emptyMetrics)).hypoxic_water_volume = false := by
      rw [hm2v]
      norm_num [truthy]
    by_cases hsrp : truthy nd.hypolimnion_srp = true
    · have hb := biomassBranch_srp_only nd _ hsrp htr
      refine ⟨?_, ?_, fun _ => ?_⟩
      · rw [hpc, hb]
        exact hnone.1
      · rw [hpc, hb]
        exact hnone.2
      · rw [hpc, hb]
        simp
    · have hsrp' : truthy nd.hypolimnion_srp = false := by simpa using hsrp
      have hb := biomassBranch_skip nd _ htr hsrp'
      refine ⟨?_, ?_, fun hcontra => absurd hcontra hsrp⟩
      · rw [hpc, hb]
        exact hnone.1
      · rw [hpc, hb]
        exact hnone.2
  · intro O V M hO hV hV0 hM hM0 hcc
    have hb := hypoxicVolumeBranch_pos dd hd emptyMetrics O V M hO hV hM hcc hV0 hM0
    rw [hA, hb]
    constructor
    · intro h
      have h' : V * ((M - O) / M) ^ 2 = 0 := Option.some.inj h
      have hx : ((M - O) / M) ^ 2 = 0 := by
        rcases mul_eq_zero.mp h' with h'' | h''
        · exact absurd h'' hV0
        · exact h''
      have hfrac : (M - O) / M = 0 := by
        exact pow_eq_zero_iff (by norm_num) |>.mp hx
      rcases div_eq_zero_iff.mp hfrac with h'' | h''
      · exact (sub_eq_zero.mp h'').symm
      · exact absurd h'' hM0
    · rintro rfl
      norm_num

/-- Witness for C10, exercising every clause at `oxycline_depth = max_depth
= 20`, `total_volume = 100000`, `surface_area = 5000`, `srp = 2`: the
computed volume is `some 0`, the sediment and biomass fields stay null, and
the missing-volume note is appended. -/
theorem zero_hypoxic_volume_treated_as_absent_witness :
    (performCalculations id (ddOxy (some 20)) (ndSRP (some 2))
      (hdMVT (some 20) (some 100000) (some 5000))).hypoxic_water_volume = some 0 ∧
    (performCalculations id (ddOxy (some 20)) (ndSRP (some 2))
      (hdMVT (some 20) (some 100000) (some 5000))).hypoxic_sediment_area = none ∧
    (performCalculations id (ddOxy (some 20)) (ndSRP (some 2))
      (hdMVT (some 20) (some 100000) (some 5000))).phytoplankton_biomass_potential =
        none ∧
    CalcNote.biomassMissingVolume ∈
      (performCalculations id (ddOxy (some 20)) (ndSRP (some 2))
        (hdMVT (some 20) (some 100000) (some 5000))).calculation_notes := by
  have hth := zero_hypoxic_volume_treated_as_absent id (ddOxy (some 20))
    (ndSRP (some 2)) (hdMVT (some 20) (some 100000) (some 5000))
  have hv0 : (performCalculations id (ddOxy (some 20)) (ndSRP (some 2))
      (hdMVT (some 20) (some 100000) (some 5000))).hypoxic_water_volume = some 0 :=
    (hth.2.2.2 20 100000 20 rfl rfl (by norm_num) rfl (by norm_num) rfl).mpr rfl
  exact ⟨hv0, (hth.2.1 (hth.1 hv0)).1, (hth.2.2.1 hv0).1,
    (hth.2.2.1 hv0).2.2 (by norm_num [truthy, ndSRP])⟩

/-- Claim C3 (confirmed).  For every per-parameter fit (over any regression
backend `reg` returning `(slope, p_value)`): with fewer than 2 non-null
`(year, value)` pairs the result is tagged `insufficient_data` (direction
`none`); with at least 2 pairs, the direction is `increasing`/`decreasing`
exactly when `p < 0.05` and `|slope| ≥ 0.01`; `p < 0.05` with
`|slope| < 0.01` gives `stable`; `p ≥ 0.05` gives `no_clear_trend`
(lake_assessment.py lines 244-268). -/
theorem trend_direction_classification (reg : List (ℤ × ℚ) → ℚ × ℚ)
    (years : List ℤ) (values : List (Option ℚ)) :
    ((cleanData years values).length < 2 →
      (calculateTrend reg years values).trend = TrendTag.insufficient_data ∧
      (calculateTrend reg years values).direction = none) ∧
    (2 ≤ (cleanData years values).length →
      (calculateTrend reg years values).trend = TrendTag.analyzed ∧
      ∃ dir, (calculateTrend reg years values).direction = some dir ∧
        ((dir = TrendDirection.increasing ∨ dir = TrendDirection.decreasing) ↔
          ((reg (cleanData years values)).2 < 1/20 ∧
            1/100 ≤ |(reg (cleanData years values)).1|)) ∧
        ((reg (cleanData years values)).2 < 1/20 →
          |(reg (cleanData years values)).1| < 1/100 →
          dir = TrendDirection.stable) ∧
        (1/20 ≤ (reg (cleanData years values)).2 →
          dir = TrendDirection.no_clear_trend)) := by
  constructor
  · intro h
    unfold calculateTrend
    dsimp only
    rw [if_pos h]
    exact ⟨rfl, rfl⟩
  · intro h
    unfold calculateTrend
    dsimp only
    rw [if_neg (by omega)]
    refine ⟨rfl, ?_⟩
    refine ⟨_, rfl, ?_⟩
    split_ifs with hp hsl hpos
    · refine ⟨⟨fun hcon => ?_, fun hcon => absurd hsl (not_lt.mpr hcon.2)⟩,
        fun _ _ => rfl, fun hge => absurd hp (not_lt.mpr hge)⟩
      rcases hcon with h' | h' <;> cases h'
    · exact ⟨⟨fun _ => ⟨hp, le_of_not_lt hsl⟩, fun _ => Or.inl rfl⟩,
        fun _ hlt => absurd hlt hsl, fun hge => absurd hp (not_lt.mpr hge)⟩
    · exact ⟨⟨fun _ => ⟨hp, le_of_not_lt hsl⟩, fun _ => Or.inr rfl⟩,
        fun _ hlt => absurd hlt hsl, fun hge => absurd hp (not_lt.mpr hge)⟩
    · refine ⟨⟨fun hcon => ?_, fun hcon => absurd hcon.1 hp⟩,
        fun h1 _ => absurd h1 hp, fun _ => rfl⟩
      rcases hcon with h' | h' <;> cases h'

/-- Witness for C3: a single pair is insufficient; with the constant backend
`(slope, p) = (1, 1)` the direction is `no_clear_trend` since `p ≥ 0.05`. -/
theorem trend_direction_classification_witness :
    (calculateTrend regConst [2020] [some 1]).trend = TrendTag.insufficient_data ∧
    (calculateTrend regConst [2020, 2021, 2022]
      [some 5, some 5, some 5]).direction = some TrendDirection.no_clear_trend := by
  have h1 := (trend_direction_classification regConst [2020] [some 1]).1 (by decide)
  have h2 := (trend_direction_classification regConst [2020, 2021, 2022]
    [some 5, some 5, some 5]).2 (by decide)
  obtain ⟨_, dir, hdir, _, _, hnc⟩ := h2
  refine ⟨h1.1, ?_⟩
  rw [hdir, hnc (by norm_num [regConst])]

/-- Claim C7 counterexample.  The claim asserts that when both the regex
patterns and the supplied metrics yield DO values, `do_values` is the union
of both sources and `minimum_do` the minimum over it.  With regex matches
`[3]` and metrics values `[1]`, the code `do_values = do_values or
metrics.get('dissolved_oxygen_values', [])` (advanced_analysis.py line 204)
keeps only the regex list: the metrics value `1` is dropped, and
`minimum_do = 3` instead of the union minimum `1`. -/
theorem do_values_not_union :
    (extractDOData [3] [1] []).do_values = [3] ∧
    (1 : ℚ) ∉ (extractDOData [3] [1] []).do_values ∧
    (extractDOData [3] [1] []).minimum_do = some 3 := by
  refine ⟨rfl, ?_, rfl⟩
  decide

/-- Claim C7 (amended: the regex matches take precedence rather than being
unioned — `do_values or metrics…` is Python's short-circuiting `or`).  When
the regex finds at least one value, `do_values` equals the regex match list
alone; metrics DO values are used only when the regex finds none; and
`minimum_do` is the minimum over the list so chosen. -/
theorem do_values_prefer_regex (rv mv depths : List ℚ) :
    (rv ≠ [] → (extractDOData rv mv depths).do_values = rv) ∧
    (rv = [] → (extractDOData rv mv depths).do_values = mv) ∧
    (extractDOData rv mv depths).minimum_do =
      listMin (extractDOData rv mv depths).do_values ∧
    (∀ m, listMin (extractDOData rv mv depths).do_values = some m →
      m ∈ (extractDOData rv mv depths).do_values ∧
      ∀ x ∈ (extractDOData rv mv depths).do_values, m ≤ x) := by
  refine ⟨?_, ?_, rfl, fun m h => listMin_spec _ m h⟩
  · intro h
    simp [extractDOData, List.isEmpty_iff, h]
  · intro h
    simp [extractDOData, h]

/-- Witness for C7: regex `[3]` with metrics `[1]` keeps `[3]`; empty regex
with metrics `[2, 1]` keeps `[2, 1]` with minimum `1`. -/
theorem do_values_prefer_regex_witness :
    (extractDOData [3] [1] []).do_values = [3] ∧
    (extractDOData [] [2, 1] []).do_values = [2, 1] ∧
    (extractDOData [] [2, 1] []).minimum_do = some 1 := by
  have h1 := (do_values_prefer_regex [3] [1] []).1 (by simp)
  have h2 := (do_values_prefer_regex [] [2, 1] []).2.1 rfl
  have h3 := (do_values_prefer_regex [] [2, 1] []).2.2.1
  refine ⟨h1, h2, ?_⟩
  rw [h3, h2]
  decide

/-- The loop body for a key whose own flag is off but whose paired
percentage flag is on: partial entry, half of the present weight, missing
list untouched. -/
theorem evalCalcStep_halfCredit (pf : String → Bool) (wPresent wMissing : ℚ)
    (key rel : String) (hrel : relatedCalcs key = some rel)
    (habs : pf ("calc_" ++ key) = false) (hpct : pf ("calc_" ++ rel) = true)
    (st : CalcEvalState) :
    evalCalcStep pf wPresent wMissing st key =
      { st with
        found := st.found ++ [⟨key, true⟩]
        score := st.score + wPresent * (1/2) } := by
  simp [evalCalcStep, habs, hrel, hpct]

/-- The loop body never removes a found entry. -/
theorem evalCalcStep_found_mono (pf : String → Bool) (wPresent wMissing : ℚ)
    (st : CalcEvalState) (k : String) (e : CalcFoundEntry) (h : e ∈ st.found) :
    e ∈ (evalCalcStep pf wPresent wMissing st k).found := by
  unfold evalCalcStep
  split
  · simp [h]
  · split
    · split
      · simp [h]
      · simp [h]
    · simp [h]

/-- The loop body either leaves the missing list unchanged or appends
exactly the processed key. -/
theorem evalCalcStep_missing_cases (pf : String → Bool) (wPresent wMissing : ℚ)
    (st : CalcEvalState) (k : String) :
    (evalCalcStep pf wPresent wMissing st k).missing = st.missing ∨
    (evalCalcStep pf wPresent wMissing st k).missing = st.missing ++ [k] := by
  unfold evalCalcStep
  split
  · left
    rfl
  · split
    · split
      · left
        rfl
      · right
        rfl
    · right
      rfl

/-- Claim C6 (confirmed).  When the percentage variant of a paired calculation
is flagged found but the absolute one is not, the absolute key never enters
`calculations.missing`, it is recorded in `found` with the partial marker,
and its score contribution is exactly half the calculation-present weight
instead of the missing penalty (compliance_engine.py lines 869-884). -/
theorem paired_calculation_half_credit (pf : String → Bool)
    (wPresent wMissing : ℚ) (key rel : String)
    (hrel : relatedCalcs key = some rel)
    (habs : pf ("calc_" ++ key) = false) (hpct : pf ("calc_" ++ rel) = true)
    (calcKeys : List String) :
    key ∉ (evaluateCalculations pf wPresent wMissing calcKeys).missing ∧
    (key ∈ calcKeys →
      CalcFoundEntry.mk key true ∈
        (evaluateCalculations pf wPresent wMissing calcKeys).found) ∧
    (∀ st, evalCalcStep pf wPresent wMissing st key =
      { st with
        found := st.found ++ [⟨key, true⟩]
        score := st.score + wPresent * (1/2) }) := by
  have main : ∀ (keys : List String) (st : CalcEvalState),
      (key ∉ st.missing →
        key ∉ (keys.foldl (evalCalcStep pf wPresent wMissing) st).missing) ∧
      ((key ∈ keys ∨ CalcFoundEntry.mk key true ∈ st.found) →
        CalcFoundEntry.mk key true ∈
          (keys.foldl (evalCalcStep pf wPresent wMissing) st).found) := by
    intro keys
    induction keys with
    | nil =>
      intro st
      refine ⟨fun h => h, fun h => ?_⟩
      rcases h with h | h
      · simp at h
      · exact h
    | cons k ks ih =>
      intro st
      constructor
      · intro hnm
        apply (ih _).1
        by_cases hk : k = key
        · subst hk
          rw [evalCalcStep_halfCredit pf wPresent wMissing k rel hrel habs hpct st]
          exact hnm
        · rcases evalCalcStep_missing_cases pf wPresent wMissing st k with h | h <;>
            rw [h]
          · exact hnm
          · simp only [List.mem_append, List.mem_singleton]
            rintro (hc | hc)
            · exact hnm hc
            · exact hk hc.symm
      · intro hmem
        apply (ih _).2
        rcases hmem with hmem | hmem
        · rcases List.mem_cons.mp hmem with hk | hks
          · right
            rw [← hk] at *
            rw [evalCalcStep_halfCredit pf wPresent wMissing key rel hrel habs hpct st]
            simp
          · left
            exact hks
        · right
          exact evalCalcStep_found_mono pf wPresent wMissing st k _ hmem
  refine ⟨?_, ?_, evalCalcStep_halfCredit pf wPresent wMissing key rel hrel habs hpct⟩
  · exact (main calcKeys ⟨[], [], 0⟩).1 (by simp)
  · intro hk
    exact (main calcKeys ⟨[], [], 0⟩).2 (Or.inl hk)

/-- Witness for C6 with the real rule pair (`hypoxic_water_volume` absolute,
`hypoxic_percentage_volume` percentage flagged found) and the default
weights `15` / `-15`: the absolute is partial-found, not missing, and the
run's score is `15 * 1/2`. -/
theorem paired_calculation_half_credit_witness :
    "hypoxic_water_volume" ∉
      (evaluateCalculations (fun s => s == "calc_hypoxic_percentage_volume")
        15 (-15) ["hypoxic_water_volume"]).missing ∧
    CalcFoundEntry.mk "hypoxic_water_volume" true ∈
      (evaluateCalculations (fun s => s == "calc_hypoxic_percentage_volume")
        15 (-15) ["hypoxic_water_volume"]).found ∧
    (evaluateCalculations (fun s => s == "calc_hypoxic_percentage_volume")
      15 (-15) ["hypoxic_water_volume"]).score = 15 * (1/2) := by
  have h := paired_calculation_half_credit
    (fun s => s == "calc_hypoxic_percentage_volume") 15 (-15)
    "hypoxic_water_volume" "hypoxic_percentage_volume" rfl (by decide) (by decide)
    ["hypoxic_water_volume"]
  refine ⟨h.1, h.2.1 (by simp), ?_⟩
  have hstep := h.2.2 ⟨[], [], 0⟩
  have hfold : evaluateCalculations (fun s => s == "calc_hypoxic_percentage_volume")
      15 (-15) ["hypoxic_water_volume"] =
      evalCalcStep (fun s => s == "calc_hypoxic_percentage_volume") 15 (-15)
        ⟨[], [], 0⟩ "hypoxic_water_volume" := rfl
  rw [hfold, hstep]
  norm_num

/-- Claim C4 counterexample.  The claim asserts that a group with only 2
distinct years (even with 5 records) yields a trend report whose
`overall_trajectory` states that data is insufficient.  In fact
`perform_assessment` (lake_assessment.py lines 459-477) produces no report
at all for such a group (the lake is skipped), and calling
`analyze_parameter_trends` directly on the 5 records passes its gate —
which counts year-bearing records, not distinct years — and produces an
ordinary trajectory label, not the insufficient-data one. -/
theorem two_distinct_years_no_insufficient_report :
    assessLakeGroup regConst
      [mkReport (some 2020), mkReport (some 2020), mkReport (some 2020),
       mkReport (some 2021), mkReport (some 2021)] = none ∧
    (analyzeParameterTrends regConst
      [mkReport (some 2020), mkReport (some 2020), mkReport (some 2020),
       mkReport (some 2021), mkReport (some 2021)]).overall_trajectory =
      "Stable - Monitor Closely for Changes" := by
  constructor
  · rfl
  · rfl

/-- Claim C4 (amended: a lake group qualifies for trend analysis exactly when
it has at least 3 distinct (truthy) extracted years — mere record count does
not qualify it — but a non-qualifying group is skipped entirely by
`perform_assessment`, producing no trend report at all rather than a report
stating insufficiency). -/
theorem trend_gate_distinct_years (reg : List (ℤ × ℚ) → ℚ × ℚ)
    (reports : List LakeReport) :
    ((assessLakeGroup reg reports).isSome = true ↔
      minimumReportsForTrends ≤ (reportYears reports).dedup.length) ∧
    ((reportYears reports).dedup.length < minimumReportsForTrends →
      assessLakeGroup reg reports = none) := by
  constructor
  · unfold assessLakeGroup
    dsimp only
    split
    case isTrue h => simp [h]
    case isFalse h => simp [h]
  · intro h
    unfold assessLakeGroup
    dsimp only
    rw [if_neg (by omega)]

/-- Witness for C4: two distinct years (with a repeat) give no assessment;
three distinct years qualify. -/
theorem trend_gate_distinct_years_witness :
    assessLakeGroup regConst
      [mkReport (some 2020), mkReport (some 2021), mkReport (some 2021)] = none ∧
    (assessLakeGroup regConst
      [mkReport (some 2020), mkReport (some 2021), mkReport (some 2022)]).isSome =
      true := by
  refine ⟨(trend_gate_distinct_years regConst _).2 (by decide), ?_⟩
  exact ((trend_gate_distinct_years regConst _).1).mpr (by decide)

end DocParse
